import Mathlib

/-!
Verification of the Nutritional Insights data-aggregation module.

Shallow embedding of the aggregation code in `backend/app.py`,
`Project1Files/lambda_function.py` and `Project1Files/data_analysis.py`.

Modelling conventions, fixed once for the whole development:

* A pandas DataFrame cell that can be NaN/missing is an `Option` value:
  `none` models NaN (a blank CSV cell), `some v` a present value.
* Python floats are idealised as `ℚ`.  `round(x, d)` is modelled by
  `roundTo d`; Python rounds floats half-to-even, `roundTo` rounds half-up,
  and no theorem below depends on the midpoint convention (rounding only
  ever appears applied identically on both sides of an equation).
* `df.groupby('Diet_type')` uses pandas defaults `dropna=True` (rows whose
  key is NaN belong to no group) and `sort=True` (groups are emitted sorted
  by key).  We keep the groups in first-appearance order instead; none of
  the verified properties depends on the order in which groups are listed.
* Aggregation `mean` uses pandas default `skipna=True`: the mean of a
  column is taken over its non-NaN entries, and is itself NaN when there is
  no valid entry (`meanOpt`).  Aggregation `count` counts non-NaN entries.
* `df.sort_values` / `nlargest` tie order: `nlargest(_, keep='first')`
  prefers earlier rows among ties (a stable descending sort); we model all
  sorting with the stable `List.mergeSort`.
-/

namespace NutriProof

/-- One row of the `All_Diets.csv` table.  Every cell is optional: a blank
CSV cell is read by pandas as NaN, which we model as `none`. -/
structure Row where
  diet_type : Option String
  recipe_name : Option String
  cuisine_type : Option String
  protein : Option ℚ
  carbs : Option ℚ
  fat : Option ℚ
  extraction_day : Option String
  extraction_time : Option String
deriving DecidableEq

/-- pandas column mean with `skipna=True`: the arithmetic mean of the valid
(non-`none`) cells, and `none` when no cell is valid. -/
def meanOpt (cells : List (Option ℚ)) : Option ℚ :=
  let v := cells.filterMap id
  if v.length = 0 then none else some (v.sum / v.length)

/-- Python `round(x, d)` on our `ℚ` idealisation of floats: round to the
nearest multiple of `10 ^ (-d)`.  (Python uses banker's rounding at exact
midpoints; no result below depends on the midpoint convention.) -/
def roundTo (d : ℕ) (x : ℚ) : ℚ :=
  ((round (x * 10 ^ d) : ℤ) : ℚ) / 10 ^ d

/-- Python `round` applied to a possibly-NaN value: `round(nan, d)` is NaN. -/
def roundOpt (d : ℕ) : Option ℚ → Option ℚ
  | none => none
  | some x => some (roundTo d x)

/-- Distinct `Diet_type` keys of a table, in first-appearance order.
pandas `groupby` drops rows whose key is NaN (`dropna=True`) and emits the
groups sorted by key (`sort=True`); no property below depends on the order
of groups, so first-appearance order is used. -/
def dietKeys : List Row → List String
  | [] => []
  | r :: rs =>
    match r.diet_type with
    | none => dietKeys rs
    | some d => d :: (dietKeys rs).filter (fun k => decide (k ≠ d))

/-- The group of rows carrying diet type `d`
(the rows pandas `groupby('Diet_type')` assigns to key `d`). -/
def groupRows (rows : List Row) (d : String) : List Row :=
  rows.filter (fun r => decide (r.diet_type = some d))

/-- One record of `calculate_diet_summary` (backend/app.py lines 63-86):
column labels `['Diet_type', 'Protein', 'Carbs', 'Fat', 'recipes']`. -/
structure SummaryRow where
  diet_type : String
  protein : Option ℚ
  carbs : Option ℚ
  fat : Option ℚ
  recipes : ℕ
deriving DecidableEq

/-- `calculate_diet_summary(df)` from backend/app.py lines 63-86:
`df.groupby('Diet_type').agg({'Protein(g)': 'mean', 'Carbs(g)': 'mean',
'Fat(g)': 'mean', 'Recipe_name': 'count'})`.  The means skip NaN cells and
`'count'` counts the non-NaN `Recipe_name` cells of each group.  No
rounding is applied here. -/
def calculate_diet_summary (rows : List Row) : List SummaryRow :=
  (dietKeys rows).map (fun d =>
    let g := groupRows rows d
    { diet_type := d
      protein := meanOpt (g.map Row.protein)
      carbs := meanOpt (g.map Row.carbs)
      fat := meanOpt (g.map Row.fat)
      recipes := (g.filter (fun r => decide (r.recipe_name ≠ none))).length })

/-- Whether a row has a valid (non-NaN) `Protein(g)` cell. -/
def hasProtein (r : Row) : Bool :=
  decide (r.protein ≠ none)

/-- Descending comparison on possibly-NaN values: `optDescLe x y` holds
when `x` may come before `y` in a descending sort, i.e. `x ≥ y`, with NaN
ordered after every value (pandas `na_position='last'`). -/
def optDescLe (x y : Option ℚ) : Bool :=
  match x, y with
  | some a, some b => decide (b ≤ a)
  | some _, none => true
  | none, some _ => false
  | none, none => true

/-- Descending-by-protein comparison used to model pandas sorting on
`Protein(g)`. -/
def protDescLe (a b : Row) : Bool :=
  optDescLe a.protein b.protein

/-- pandas `df.nlargest(n, 'Protein(g)')` (default `keep='first'`), per the
pandas selectn implementation: when `n ≥ len(df)` it is
`df.sort_values(ascending=False).head(n)`, which keeps NaN rows (sorted
last); otherwise rows with NaN in the sort column are dropped, and the
first `n` of the stable descending sort are taken (`keep='first'`: ties
prefer earlier rows); a non-positive `n` yields an empty frame. -/
def nlargestProtein (n : ℤ) (rows : List Row) : List Row :=
  if (rows.length : ℤ) ≤ n then
    rows.mergeSort protDescLe
  else if n ≤ 0 then
    []
  else
    ((rows.filter hasProtein).mergeSort protDescLe).take n.toNat

/-- One entry of the top-protein payload of backend/app.py lines 106-112:
`{'recipe': ..., 'protein': round(..., 1), 'carbs': round(..., 1)}`. -/
structure TopEntry where
  recipe : Option String
  protein : Option ℚ
  carbs : Option ℚ
deriving DecidableEq

/-- Projection of a selected row to its top-protein payload entry. -/
def mkTopEntry (r : Row) : TopEntry :=
  { recipe := r.recipe_name
    protein := roundOpt 1 r.protein
    carbs := roundOpt 1 r.carbs }

/-- `get_top_protein_recipes(df, limit)` from backend/app.py lines 88-114:
`df.nlargest(limit, 'Protein(g)')`, each row projected to
`(recipe, round(protein, 1), round(carbs, 1))`. -/
def get_top_protein_recipes (rows : List Row) (limit : ℤ) : List TopEntry :=
  (nlargestProtein limit rows).map mkTopEntry

/-- A data source for `load_nutrition_data` (backend/app.py lines 40-61):
the CSV file may be missing (`FileNotFoundError`), have no content at all
(`pandas.errors.EmptyDataError`), or parse to a header `cols` plus data
rows. -/
inductive Source
  | missing
  | empty
  | csv (cols : List String) (rows : List Row)
deriving DecidableEq

/-- A parsed DataFrame: the header columns and the data rows. -/
structure Frame where
  cols : List String
  rows : List Row
deriving DecidableEq

/-- `load_nutrition_data()` from backend/app.py lines 40-61: `pd.read_csv`
wrapped in `try/except (FileNotFoundError, EmptyDataError)`, returning
`None` on those two errors and the DataFrame otherwise.  Note that the
function performs no header validation and no missing-value handling:
whatever parses is returned unchanged. -/
def load_nutrition_data : Source → Option Frame
  | Source.missing => none
  | Source.empty => none
  | Source.csv cols rows => some { cols := cols, rows := rows }

/-- Replace a missing cell by the fill value `m` (itself optional: pandas
`fillna` leaves a cell as NaN when the fill value is NaN, which happens for
a column with no valid entry). -/
def fillCell (m : Option ℚ) : Option ℚ → Option ℚ
  | some v => some v
  | none => m

/-- `df.fillna(df.mean(numeric_only=True))` from
Project1Files/data_analysis.py line 92 (the offline analysis path): each
numeric column's NaN cells are replaced by that column's mean over its
valid cells; non-numeric columns are untouched. -/
def fillna_mean (rows : List Row) : List Row :=
  let mp := meanOpt (rows.map Row.protein)
  let mc := meanOpt (rows.map Row.carbs)
  let mf := meanOpt (rows.map Row.fat)
  rows.map (fun r =>
    { r with
      protein := fillCell mp r.protein
      carbs := fillCell mc r.carbs
      fat := fillCell mf r.fat })

/-- The columns `calculate_diet_summary` accesses; pandas raises `KeyError`
if any is absent from the frame. -/
def requiredCols : List String :=
  ["Diet_type", "Recipe_name", "Protein(g)", "Carbs(g)", "Fat(g)"]

/-- The columns `get_top_protein_recipes` accesses
(`df.nlargest(limit, 'Protein(g)')[['Recipe_name', 'Protein(g)', 'Carbs(g)']]`). -/
def topRequiredCols : List String :=
  ["Recipe_name", "Protein(g)", "Carbs(g)"]

/-- Outcome of the `/api/nutrition/summary` endpoint
(backend/app.py lines 124-158): a success payload, the structured
`{'error': 'Failed to load data'}, 500` payload produced when the loader
returns `None`, or an *unhandled* Python exception escaping the handler
(the handler has no `try/except`, so e.g. a `KeyError` raised by `groupby`
on a frame lacking a required column propagates out). -/
inductive SummaryResponse
  | success (total_records : ℕ) (diet_types : ℕ) (data : List SummaryRow)
  | errorPayload (msg : String)
  | unhandled (msg : String)
deriving DecidableEq

/-- `get_nutrition_summary()` from backend/app.py lines 124-158. -/
def get_nutrition_summary (src : Source) : SummaryResponse :=
  match load_nutrition_data src with
  | none => SummaryResponse.errorPayload "Failed to load data"
  | some f =>
    if requiredCols.all (fun c => f.cols.contains c) then
      SummaryResponse.success f.rows.length
        (calculate_diet_summary f.rows).length (calculate_diet_summary f.rows)
    else
      SummaryResponse.unhandled "KeyError"

/-- One HTTP query parameter as seen through
`request.args.get(key, default, type=int)`: absent, present but not
parseable as an integer, or an integer. -/
inductive Param
  | absent
  | malformed
  | int (n : ℤ)
deriving DecidableEq

/-- werkzeug `TypeConversionDict.get` semantics used by Flask's
`request.args.get(_, default=d, type=int)`: the default is returned both
when the key is absent and when the conversion raises `ValueError`. -/
def getIntParam (p : Param) (default : ℤ) : ℤ :=
  match p with
  | Param.absent => default
  | Param.malformed => default
  | Param.int n => n

/-- Outcome of the `/api/recipes/top-protein` endpoint
(backend/app.py lines 160-181), same shape as `SummaryResponse`. -/
inductive TopResponse
  | success (count : ℕ) (data : List TopEntry)
  | errorPayload (msg : String)
  | unhandled (msg : String)
deriving DecidableEq

/-- `get_top_protein()` from backend/app.py lines 160-181:
`limit = request.args.get('limit', default=5, type=int)`, then
`get_top_protein_recipes(df, limit)` with no validation of `limit`. -/
def get_top_protein (limitParam : Param) (src : Source) : TopResponse :=
  let limit := getIntParam limitParam 5
  match load_nutrition_data src with
  | none => TopResponse.errorPayload "Failed to load data"
  | some f =>
    if topRequiredCols.all (fun c => f.cols.contains c) then
      let tops := get_top_protein_recipes f.rows limit
      TopResponse.success tops.length tops
    else
      TopResponse.unhandled "KeyError"

/-- Response of the `/api/nutrition/all` endpoint
(backend/app.py lines 277-323). -/
structure PageResponse where
  page : ℕ
  per_page : ℕ
  total_records : ℕ
  total_pages : ℕ
  data : List Row
deriving DecidableEq

/-- `get_all_data()` from backend/app.py lines 277-323:
`start = (page - 1) * per_page`, `total_pages = ceil-div`, and
`df.iloc[start : start + per_page]`.  Pages are 1-based; the claim under
verification quantifies over `page ≥ 1` and `per_page ≥ 1`, so the
parameters are taken in `ℕ` (Python's negative-slice behaviour for
negative query values is outside the modelled domain). -/
def get_all_data (rows : List Row) (page per_page : ℕ) : PageResponse :=
  let start := (page - 1) * per_page
  { page := page
    per_page := per_page
    total_records := rows.length
    total_pages := (rows.length + per_page - 1) / per_page
    data := (rows.drop start).take per_page }

/-- Whether `x > t` in Python terms, where `x` may be NaN:
`nan > t` is `False` in Python. -/
def optGtQ (x : Option ℚ) (t : ℚ) : Bool :=
  match x with
  | some v => decide (t < v)
  | none => false

/-- Payload of the `/api/clusters` endpoint (backend/app.py lines 249-275). -/
structure ClustersResponse where
  high_protein_cluster : List String
  high_carb_cluster : List String
  balanced_cluster : List String
deriving DecidableEq

/-- The bucketing logic of `get_clusters()` (backend/app.py lines 260-267):
two independent threshold filters over the diet summaries, then `balanced`
as the diet types belonging to neither list. -/
def clustersOf (summary : List SummaryRow) : ClustersResponse :=
  let hp := (summary.filter (fun d => optGtQ d.protein 90)).map SummaryRow.diet_type
  let hc := (summary.filter (fun d => optGtQ d.carbs 200)).map SummaryRow.diet_type
  let bal := (summary.filter
    (fun d => decide (d.diet_type ∉ hp) && decide (d.diet_type ∉ hc))).map SummaryRow.diet_type
  { high_protein_cluster := hp
    high_carb_cluster := hc
    balanced_cluster := bal }

/-- `get_clusters()` from backend/app.py lines 249-275 on a loaded table. -/
def get_clusters (rows : List Row) : ClustersResponse :=
  clustersOf (calculate_diet_summary rows)

/-- One record of the persisted `average_macros` array
(Project1Files/lambda_function.py lines 51-57). -/
structure AvgRow where
  diet_type : String
  protein : Option ℚ
  carbs : Option ℚ
  fat : Option ℚ
deriving DecidableEq

/-- The aggregation of Project1Files/lambda_function.py line 51:
`df.groupby('Diet_type')[['Protein(g)', 'Carbs(g)', 'Fat(g)']].mean().round(2)`. -/
def avg_macros (rows : List Row) : List AvgRow :=
  (dietKeys rows).map (fun d =>
    let g := groupRows rows d
    { diet_type := d
      protein := roundOpt 2 (meanOpt (g.map Row.protein))
      carbs := roundOpt 2 (meanOpt (g.map Row.carbs))
      fat := roundOpt 2 (meanOpt (g.map Row.fat)) })

/-- The snapshot JSON written by
`process_nutritional_data_from_azurite` (lambda_function.py lines 60-71).
The `processing_timestamp` field is wall-clock metadata and not modelled. -/
structure Snapshot where
  source_file : String
  total_records_processed : ℕ
  diet_types_analyzed : List String
  average_macros : List AvgRow
deriving DecidableEq

/-- The snapshot produced from a table by
`process_nutritional_data_from_azurite` (lambda_function.py lines 49-71). -/
def process_nutritional_data (rows : List Row) (blobName : String) : Snapshot :=
  { source_file := blobName
    total_records_processed := rows.length
    diet_types_analyzed := dietKeys rows
    average_macros := avg_macros rows }

/-- `load_avg_from_json` from Project1Files/data_analysis.py lines 57-78:
reads `average_macros` back (keyed by `Diet_type` via `set_index`), raising
`ValueError` when the array is absent or empty (`if not avg`). -/
def load_avg_from_json (snap : Snapshot) : Except String (List AvgRow) :=
  if snap.average_macros.isEmpty then
    Except.error "average_macros not present in nutrition_results.json"
  else
    Except.ok snap.average_macros

/-- The summary row re-aggregated directly from the table, restricted to
the persisted fields and rounded to 2 decimals as the snapshot is. -/
def summaryToAvg (s : SummaryRow) : AvgRow :=
  { diet_type := s.diet_type
    protein := roundOpt 2 s.protein
    carbs := roundOpt 2 s.carbs
    fat := roundOpt 2 s.fat }

/-- pandas `DataFrameGroupBy.head(n)` after grouping by `Diet_type`
(`dropna=True`): keep each row that is among the first `n` of its group,
*in the order of the input frame* (pandas documents that `head` preserves
the original order rather than concatenating the groups); rows with a NaN
key belong to no group and are dropped.  `seen` counts the rows of each
key already passed. -/
def headPerGroup (n : ℕ) : List Row → (String → ℕ) → List Row
  | [], _ => []
  | r :: rs, seen =>
    match r.diet_type with
    | none => headPerGroup n rs seen
    | some d =>
      if seen d < n then
        r :: headPerGroup n rs (fun k => if k = d then seen d + 1 else seen k)
      else
        headPerGroup n rs seen

/-- The per-diet-type top-5 of Project1Files/data_analysis.py lines 104-111:
`df.sort_values('Protein(g)', ascending=False).groupby('Diet_type').head(5)`.
The sort is modelled stably (pandas' default quicksort leaves tie order
unspecified; the statements proved below do not depend on tie order). -/
def top5_per_diet (rows : List Row) : List Row :=
  headPerGroup 5 (rows.mergeSort protDescLe) (fun _ => 0)

/-- Helper state machine deciding whether equal keys occur contiguously:
`cur` is the key of the current block, `seen` the keys of finished blocks. -/
def contiguousAux : List String → String → List String → Bool
  | [], _, _ => true
  | k :: rest, cur, seen =>
    if k = cur then
      contiguousAux rest cur seen
    else if seen.contains k then
      false
    else
      contiguousAux rest k (cur :: seen)

/-- Whether a key sequence consists of contiguous blocks of equal keys
(as the concatenation of per-group blocks necessarily would). -/
def contiguous : List String → Bool
  | [] => true
  | k :: rest => contiguousAux rest k []

/-- One projected recipe of the `/api/recipes` payload
(backend/app.py lines 230-240).  The Python `row.get(col, default)`
defaults apply only when a *column* is absent; with the fixed schema
modelled here every column is present, so the cell value (possibly NaN)
is passed through. -/
structure RecipeEntry where
  recipe_name : Option String
  diet_type : Option String
  cuisine_type : Option String
  protein : Option ℚ
  carbs : Option ℚ
  fat : Option ℚ
  extraction_day : Option String
  extraction_time : Option String
deriving DecidableEq

/-- The `statistics` object of the `/api/recipes` payload
(backend/app.py lines 220-225). -/
structure Statistics where
  total_recipes : ℕ
  avg_protein : Option ℚ
  avg_carbs : Option ℚ
  avg_fat : Option ℚ
deriving DecidableEq

/-- The `/api/recipes` success payload (backend/app.py lines 242-247). -/
structure RecipesResponse where
  count : ℕ
  recipes : List RecipeEntry
  statistics : Statistics
deriving DecidableEq

/-- pandas `df.head(n)` for an `int` argument: the first `n` rows when
`n ≥ 0`, and all rows but the last `|n|` when `n < 0`. -/
def pdHead (n : ℤ) (l : List Row) : List Row :=
  if 0 ≤ n then l.take n.toNat else l.take (l.length - (-n).toNat)

/-- Projection of a row for the `/api/recipes` payload
(backend/app.py lines 230-240): macros rounded to 1 decimal place. -/
def projectRecipe (r : Row) : RecipeEntry :=
  { recipe_name := r.recipe_name
    diet_type := r.diet_type
    cuisine_type := r.cuisine_type
    protein := roundOpt 1 r.protein
    carbs := roundOpt 1 r.carbs
    fat := roundOpt 1 r.fat
    extraction_day := r.extraction_day
    extraction_time := r.extraction_time }

/-- The body of `get_recipes()` (backend/app.py lines 206-247) after a
successful load: `diet_type = request.args.get('diet_type')` is `None` or a
string, and the Python guard `if diet_type:` skips the filter both for
`None` and for the empty string; the filter compares lowercased diet types
(a NaN diet type compares unequal).  Statistics are computed over the
filtered frame before `head(limit)` truncates the returned rows. -/
def get_recipes (rows : List Row) (diet_filter : Option String) (limit : ℤ) : RecipesResponse :=
  let df := match diet_filter with
    | none => rows
    | some s =>
      if s = "" then rows
      else rows.filter (fun r =>
        match r.diet_type with
        | some dt => decide (dt.toLower = s.toLower)
        | none => false)
  let recipes := (pdHead limit df).map projectRecipe
  { count := recipes.length
    recipes := recipes
    statistics :=
      { total_recipes := df.length
        avg_protein := roundOpt 2 (meanOpt (df.map Row.protein))
        avg_carbs := roundOpt 2 (meanOpt (df.map Row.carbs))
        avg_fat := roundOpt 2 (meanOpt (df.map Row.fat)) } }

/-- The pagination property of claim C3, for a table and a page size:
pages `1 .. total_pages` concatenate (in order, hence contiguously, with
no duplicate and no gap) to the full table, and every page number beyond
`total_pages` yields an empty data slice while reporting the same
`total_records` and `total_pages`. -/
def C3prop (rows : List Row) (ps : ℕ) : Prop :=
  (((List.range (get_all_data rows 1 ps).total_pages).map
      (fun i => (get_all_data rows (i + 1) ps).data)).flatten = rows) ∧
  ∀ p : ℕ, (get_all_data rows 1 ps).total_pages < p →
    (get_all_data rows p ps).data = [] ∧
    (get_all_data rows p ps).total_records = rows.length ∧
    (get_all_data rows p ps).total_pages = (get_all_data rows 1 ps).total_pages

/-- Concrete-row constructor for the sample tables used in the closed
theorems below (cuisine and extraction fields left blank). -/
def mkRow (d rn : Option String) (p c f : Option ℚ) : Row :=
  { diet_type := d
    recipe_name := rn
    cuisine_type := none
    protein := p
    carbs := c
    fat := f
    extraction_day := none
    extraction_time := none }

/-- Concrete table for the C2 witness: two rows with valid protein. -/
def c2wrows : List Row :=
  [mkRow (some "keto") (some "a") (some 3) (some 1) (some 1),
   mkRow (some "vegan") (some "b") (some 7) (some 2) (some 2)]

/-- Concrete table for C5: the first row has a blank protein cell, the
second a valid one, so the column mean over valid cells is 8. -/
def c5rows : List Row :=
  [mkRow (some "keto") (some "a") none (some 20) (some 5),
   mkRow (some "keto") (some "b") (some 8) (some 10) (some 3)]

/-- Concrete one-row table for the C7 witness. -/
def c7rows : List Row :=
  [mkRow (some "paleo") (some "p1") (some 4) (some 1) (some 1)]

/-- Concrete table for the C9 counterexample, already sorted descending by
protein: diet `a` (protein 30), diet `b` (protein 20), diet `a`
(protein 10). -/
def c9rows : List Row :=
  [mkRow (some "a") (some "r3") (some 30) (some 1) (some 1),
   mkRow (some "b") (some "r2") (some 20) (some 1) (some 1),
   mkRow (some "a") (some "r1") (some 10) (some 1) (some 1)]

/-- Concrete diet summaries for the C4 witness: `keto` exceeds both
thresholds, `vegan` exceeds only the carbs threshold. -/
def c4summary : List SummaryRow :=
  [{ diet_type := "keto", protein := some 95, carbs := some 250, fat := some 10, recipes := 2 },
   { diet_type := "vegan", protein := some 30, carbs := some 250, fat := some 5, recipes := 1 }]

/-!
## Theorems

Helper lemmas shared between claims come first, then, for each claim, its
main theorem together with its witness or counterexample.
-/

theorem dietKeys_nodup (rows : List Row) : (dietKeys rows).Nodup := by
  induction rows with
  | nil => exact List.nodup_nil
  | cons r rs ih =>
    cases hr : r.diet_type with
    | none =>
      simpa [dietKeys, hr] using ih
    | some d =>
      simp only [dietKeys, hr, List.nodup_cons]
      refine ⟨fun hmem => ?_, ih.filter _⟩
      rcases List.mem_filter.mp hmem with ⟨-, hdec⟩
      simp at hdec

theorem mem_dietKeys {d : String} : ∀ {rows : List Row},
    d ∈ dietKeys rows ↔ ∃ r ∈ rows, r.diet_type = some d := by
  intro rows
  induction rows with
  | nil => simp [dietKeys]
  | cons r rs ih =>
    cases hr : r.diet_type with
    | none =>
      simp only [dietKeys, hr]
      rw [ih]
      constructor
      · rintro ⟨r', h1, h2⟩
        exact ⟨r', List.mem_cons_of_mem _ h1, h2⟩
      · rintro ⟨r', h1, h2⟩
        rcases List.mem_cons.mp h1 with rfl | h1
        · rw [hr] at h2; cases h2
        · exact ⟨r', h1, h2⟩
    | some k =>
      simp only [dietKeys, hr]
      constructor
      · intro hmem
        rcases List.mem_cons.mp hmem with rfl | hmem
        · exact ⟨r, List.mem_cons_self r rs, hr⟩
        · rcases List.mem_filter.mp hmem with ⟨h1, -⟩
          rcases ih.mp h1 with ⟨r', h2, h3⟩
          exact ⟨r', List.mem_cons_of_mem _ h2, h3⟩
      · rintro ⟨r', h1, h2⟩
        rcases List.mem_cons.mp h1 with rfl | h1
        · rw [hr] at h2
          injection h2 with h2
          subst h2
          exact List.mem_cons_self _ _
        · by_cases hdk : d = k
          · subst hdk
            exact List.mem_cons_self _ _
          · refine List.mem_cons_of_mem _ (List.mem_filter.mpr ⟨ih.mpr ⟨r', h1, h2⟩, ?_⟩)
            simp [hdk]

theorem sum_map_filter_ne (f : String → ℕ) :
    ∀ (l : List String), l.Nodup → ∀ d ∈ l,
      (l.map f).sum = f d + ((l.filter (fun k => decide (k ≠ d))).map f).sum := by
  intro l
  induction l with
  | nil =>
    intro _ d hd
    cases hd
  | cons a t ih =>
    intro hnd d hd
    rcases List.mem_cons.mp hd with rfl | hdt
    · have hat : t.filter (fun k => decide (k ≠ d)) = t := by
        refine List.filter_eq_self.mpr (fun k hk => ?_)
        have : k ≠ d := fun h => (List.nodup_cons.mp hnd).1 (h ▸ hk)
        simpa using this
      simp only [ne_eq, decide_not] at hat
      simp [List.filter_cons, hat]
    · have had : a ≠ d := by
        rintro rfl
        exact (List.nodup_cons.mp hnd).1 hdt
      rw [List.map_cons, List.sum_cons, ih (List.nodup_cons.mp hnd).2 d hdt]
      have hfc : (a :: t).filter (fun k => decide (k ≠ d))
          = a :: t.filter (fun k => decide (k ≠ d)) := by
        simp [List.filter_cons, had]
      rw [hfc, List.map_cons, List.sum_cons]
      omega

theorem groupRows_eq_nil_of_not_mem {rows : List Row} {k : String}
    (hk : k ∉ dietKeys rows) : groupRows rows k = [] := by
  rw [groupRows, List.filter_eq_nil_iff]
  intro r hr hcon
  exact hk (mem_dietKeys.mpr ⟨r, hr, by simpa using hcon⟩)

theorem sum_group_counts (p : Row → Bool) :
    ∀ rows : List Row,
      ((dietKeys rows).map (fun d => ((groupRows rows d).filter p).length)).sum
        = (rows.filter (fun r => decide (r.diet_type ≠ none) && p r)).length := by
  intro rows
  induction rows with
  | nil => rfl
  | cons r rs ih =>
    cases hr : r.diet_type with
    | none =>
      have hg : ∀ d, groupRows (r :: rs) d = groupRows rs d := by
        intro d
        simp [groupRows, List.filter_cons, hr]
      have hkeys : dietKeys (r :: rs) = dietKeys rs := by
        simp [dietKeys, hr]
      have hrhs : (r :: rs).filter (fun x => decide (x.diet_type ≠ none) && p x)
          = rs.filter (fun x => decide (x.diet_type ≠ none) && p x) := by
        simp [List.filter_cons, hr]
      rw [hkeys, hrhs, ← ih]
      exact congrArg List.sum (List.map_congr_left (fun d _ => by rw [hg]))
    | some k =>
      have hgk : groupRows (r :: rs) k = r :: groupRows rs k := by
        simp [groupRows, List.filter_cons, hr]
      have hgd : ∀ d, d ≠ k → groupRows (r :: rs) d = groupRows rs d := by
        intro d hdk
        simp [groupRows, List.filter_cons, hr, Ne.symm hdk]
      have hkeys : dietKeys (r :: rs)
          = k :: (dietKeys rs).filter (fun x => decide (x ≠ k)) := by
        simp [dietKeys, hr]
      have hmapeq :
          ((dietKeys rs).filter (fun x => decide (x ≠ k))).map
              (fun d => ((groupRows (r :: rs) d).filter p).length)
            = ((dietKeys rs).filter (fun x => decide (x ≠ k))).map
              (fun d => ((groupRows rs d).filter p).length) := by
        refine List.map_congr_left (fun d hd => ?_)
        rcases List.mem_filter.mp hd with ⟨-, hdec⟩
        rw [hgd d (by simpa using hdec)]
      have hsplit :
          ((dietKeys rs).map (fun d => ((groupRows rs d).filter p).length)).sum
            = ((groupRows rs k).filter p).length
              + (((dietKeys rs).filter (fun x => decide (x ≠ k))).map
                  (fun d => ((groupRows rs d).filter p).length)).sum := by
        by_cases hk : k ∈ dietKeys rs
        · exact sum_map_filter_ne _ (dietKeys rs) (dietKeys_nodup rs) k hk
        · rw [groupRows_eq_nil_of_not_mem hk]
          have : (dietKeys rs).filter (fun x => decide (x ≠ k)) = dietKeys rs := by
            refine List.filter_eq_self.mpr (fun d hd => ?_)
            have : d ≠ k := fun h => hk (h ▸ hd)
            simpa using this
          rw [this]
          simp
      rw [hkeys, List.map_cons, List.sum_cons, hmapeq, hgk]
      by_cases hp : p r
      · have hgoalr : (r :: rs).filter (fun x => decide (x.diet_type ≠ none) && p x)
            = r :: rs.filter (fun x => decide (x.diet_type ≠ none) && p x) := by
          simp [List.filter_cons, hr, hp]
        rw [hgoalr, List.filter_cons_of_pos hp, List.length_cons, List.length_cons, ← ih]
        omega
      · have hgoalr : (r :: rs).filter (fun x => decide (x.diet_type ≠ none) && p x)
            = rs.filter (fun x => decide (x.diet_type ≠ none) && p x) := by
          simp [List.filter_cons, hr, hp]
        rw [hgoalr, List.filter_cons_of_neg hp, ← ih]
        omega

/-- C1 (corrected): the sum of `recipes` over the rows of
`calculate_diet_summary` equals the number of table rows having both a
present `Diet_type` and a present `Recipe_name` — not the total record
count: pandas `groupby` drops rows with a NaN key and the `'count'`
aggregation counts only non-NaN `Recipe_name` cells, so the reported
`total_records = len(df)` exceeds the sum as soon as such cells are
missing.  When no such value is missing the two coincide. -/
theorem C1_recipe_count_sum (rows : List Row) :
    ((calculate_diet_summary rows).map SummaryRow.recipes).sum
      = (rows.filter
          (fun r => decide (r.diet_type ≠ none) && decide (r.recipe_name ≠ none))).length := by
  rw [calculate_diet_summary, List.map_map]
  exact sum_group_counts (fun r => decide (r.recipe_name ≠ none)) rows

/-- C1 counterexample: a one-row table whose single row has a present
`Diet_type` but a missing `Recipe_name`: the summary's recipe counts sum
to 0 while `total_records = len(df) = 1`. -/
theorem C1_counterexample :
    ((calculate_diet_summary
        [mkRow (some "keto") none (some 10) (some 20) (some 5)]).map
      SummaryRow.recipes).sum
      ≠ ([mkRow (some "keto") none (some 10) (some 20) (some 5)] : List Row).length := by
  decide

theorem flatten_chunks {α : Type} (ps : ℕ) :
    ∀ (tp : ℕ) (l : List α),
      ((List.range tp).map (fun i => (l.drop (i * ps)).take ps)).flatten
        = l.take (tp * ps) := by
  intro tp
  induction tp with
  | zero =>
    intro l
    simp
  | succ n ih =>
    intro l
    rw [List.range_succ_eq_map, List.map_cons, List.map_map, List.flatten_cons]
    have hshift : ((List.range n).map
          ((fun i => (l.drop (i * ps)).take ps) ∘ Nat.succ))
        = (List.range n).map (fun i => (((l.drop ps).drop (i * ps)).take ps)) := by
      refine List.map_congr_left (fun i _ => ?_)
      show ((l.drop ((i + 1) * ps)).take ps) = (((l.drop ps).drop (i * ps)).take ps)
      rw [List.drop_drop, Nat.succ_mul, Nat.add_comm]
    rw [hshift, ih (l.drop ps), Nat.succ_mul, Nat.add_comm, List.take_add]
    simp

theorem length_le_total_pages_mul (n ps : ℕ) (h : 1 ≤ ps) :
    n ≤ ((n + ps - 1) / ps) * ps := by
  have h1 := Nat.div_add_mod (n + ps - 1) ps
  have h2 : (n + ps - 1) % ps < ps := Nat.mod_lt _ (by omega)
  rw [Nat.mul_comm]
  omega

/-- C3 (confirmed): with `page_size ≥ 1`, pages `1 .. total_pages`
(`total_pages = ceil(total_records / page_size)`, computed as
`(n + per_page - 1) // per_page`) are contiguous order-preserving
windows concatenating to the full table with no duplicates and no gaps,
and any page number beyond `total_pages` yields an empty data slice while
still reporting the same `total_records` and `total_pages`. -/
theorem C3_pagination (rows : List Row) (ps : ℕ) (h : 1 ≤ ps) : C3prop rows ps := by
  have htp : (get_all_data rows 1 ps).total_pages = (rows.length + ps - 1) / ps := rfl
  constructor
  · have hdata : ∀ i : ℕ, (get_all_data rows (i + 1) ps).data
        = (rows.drop (i * ps)).take ps := by
      intro i
      show (rows.drop ((i + 1 - 1) * ps)).take ps = (rows.drop (i * ps)).take ps
      simp
    calc ((List.range (get_all_data rows 1 ps).total_pages).map
            (fun i => (get_all_data rows (i + 1) ps).data)).flatten
        = ((List.range ((rows.length + ps - 1) / ps)).map
            (fun i => (rows.drop (i * ps)).take ps)).flatten := by
          rw [htp]
          exact congrArg List.flatten (List.map_congr_left (fun i _ => hdata i))
      _ = rows.take (((rows.length + ps - 1) / ps) * ps) := flatten_chunks ps _ rows
      _ = rows := List.take_of_length_le (length_le_total_pages_mul rows.length ps h)
  · intro p hp
    rw [htp] at hp
    refine ⟨?_, rfl, rfl⟩
    show (rows.drop ((p - 1) * ps)).take ps = []
    have h1 : ((rows.length + ps - 1) / ps) * ps ≤ (p - 1) * ps :=
      Nat.mul_le_mul_right ps (by omega)
    have h2 : rows.length ≤ (p - 1) * ps :=
      le_trans (length_le_total_pages_mul rows.length ps h) h1
    rw [List.drop_eq_nil_of_le h2, List.take_nil]

/-- C3 witness: the pagination property instantiated on a concrete
three-row table with page size 2. -/
theorem C3_witness :
    (1 ≤ 2) ∧
      C3prop
        [mkRow (some "keto") (some "r1") (some 1) (some 2) (some 3),
         mkRow (some "vegan") (some "r2") (some 4) (some 5) (some 6),
         mkRow (some "paleo") (some "r3") (some 7) (some 8) (some 9)] 2 :=
  ⟨by decide,
   C3_pagination
     [mkRow (some "keto") (some "r1") (some 1) (some 2) (some 3),
      mkRow (some "vegan") (some "r2") (some 4) (some 5) (some 6),
      mkRow (some "paleo") (some "r3") (some 7) (some 8) (some 9)] 2 (by decide)⟩

/-- C10 (confirmed): passing the `diet_type` query parameter as the empty
string is indistinguishable from omitting it: Python's `if diet_type:`
guard is falsy for `""` exactly as for `None`, so the full table feeds
both the returned rows and the statistics. -/
theorem C10_empty_filter_no_op (rows : List Row) (limit : ℤ) :
    get_recipes rows (some "") limit = get_recipes rows none limit := rfl

theorem mem_filter_map_diet {summary : List SummaryRow} {q : SummaryRow → Bool}
    (hnd : (summary.map SummaryRow.diet_type).Nodup) {s : SummaryRow} (hs : s ∈ summary) :
    s.diet_type ∈ (summary.filter q).map SummaryRow.diet_type ↔ q s = true := by
  constructor
  · intro hmem
    rcases List.mem_map.mp hmem with ⟨t, htf, hteq⟩
    rcases List.mem_filter.mp htf with ⟨htmem, htq⟩
    exact List.inj_on_of_nodup_map hnd htmem hs hteq ▸ htq
  · intro hq
    exact List.mem_map.mpr ⟨s, List.mem_filter.mpr ⟨hs, hq⟩, rfl⟩

/-- C4 (confirmed): on diet summaries with pairwise-distinct diet types
(as `groupby` produces), a diet type lands in `high_protein_cluster` iff
its mean protein is strictly above 90 and in `high_carb_cluster` iff its
mean carbs are strictly above 200 — two independent filters, so a diet
type can be in both — and in `balanced_cluster` iff it is in neither;
hence every diet type is in at least one bucket, and a mean protein of
exactly 90 does not qualify for `high_protein_cluster`. -/
theorem C4_clusters (summary : List SummaryRow)
    (hnd : (summary.map SummaryRow.diet_type).Nodup) :
    ∀ s ∈ summary,
      (s.diet_type ∈ (clustersOf summary).high_protein_cluster
        ↔ optGtQ s.protein 90 = true) ∧
      (s.diet_type ∈ (clustersOf summary).high_carb_cluster
        ↔ optGtQ s.carbs 200 = true) ∧
      (s.diet_type ∈ (clustersOf summary).balanced_cluster
        ↔ (optGtQ s.protein 90 = false ∧ optGtQ s.carbs 200 = false)) ∧
      (s.diet_type ∈ (clustersOf summary).high_protein_cluster ∨
        s.diet_type ∈ (clustersOf summary).high_carb_cluster ∨
        s.diet_type ∈ (clustersOf summary).balanced_cluster) ∧
      (s.protein = some 90 → s.diet_type ∉ (clustersOf summary).high_protein_cluster) := by
  intro s hs
  have hhp : s.diet_type ∈ (clustersOf summary).high_protein_cluster
      ↔ optGtQ s.protein 90 = true := mem_filter_map_diet hnd hs
  have hhc : s.diet_type ∈ (clustersOf summary).high_carb_cluster
      ↔ optGtQ s.carbs 200 = true := mem_filter_map_diet hnd hs
  have hbal : s.diet_type ∈ (clustersOf summary).balanced_cluster
      ↔ (decide (s.diet_type ∉ (clustersOf summary).high_protein_cluster) &&
          decide (s.diet_type ∉ (clustersOf summary).high_carb_cluster)) = true :=
    mem_filter_map_diet hnd hs
  have hbal2 : s.diet_type ∈ (clustersOf summary).balanced_cluster
      ↔ (optGtQ s.protein 90 = false ∧ optGtQ s.carbs 200 = false) := by
    rw [hbal, Bool.and_eq_true, decide_eq_true_eq, decide_eq_true_eq, hhp, hhc]
    simp
  refine ⟨hhp, hhc, hbal2, ?_, ?_⟩
  · by_cases h1 : optGtQ s.protein 90 = true
    · exact Or.inl (hhp.mpr h1)
    · by_cases h2 : optGtQ s.carbs 200 = true
      · exact Or.inr (Or.inl (hhc.mpr h2))
      · refine Or.inr (Or.inr (hbal2.mpr ?_))
        simp only [Bool.not_eq_true] at h1 h2
        exact ⟨h1, h2⟩
  · intro h90 hmem
    have := hhp.mp hmem
    rw [h90] at this
    simp [optGtQ] at this

/-- C4 witness: the bucket characterisation instantiated on a concrete
pair of summaries, one of which exceeds both thresholds. -/
theorem C4_witness :
    ((c4summary.map SummaryRow.diet_type).Nodup) ∧
    (∀ s ∈ c4summary,
      (s.diet_type ∈ (clustersOf c4summary).high_protein_cluster
        ↔ optGtQ s.protein 90 = true) ∧
      (s.diet_type ∈ (clustersOf c4summary).high_carb_cluster
        ↔ optGtQ s.carbs 200 = true) ∧
      (s.diet_type ∈ (clustersOf c4summary).balanced_cluster
        ↔ (optGtQ s.protein 90 = false ∧ optGtQ s.carbs 200 = false)) ∧
      (s.diet_type ∈ (clustersOf c4summary).high_protein_cluster ∨
        s.diet_type ∈ (clustersOf c4summary).high_carb_cluster ∨
        s.diet_type ∈ (clustersOf c4summary).balanced_cluster) ∧
      (s.protein = some 90 → s.diet_type ∉ (clustersOf c4summary).high_protein_cluster)) :=
  ⟨by decide, C4_clusters c4summary (by decide)⟩

theorem optDescLe_trans : ∀ x y z : Option ℚ,
    optDescLe x y = true → optDescLe y z = true → optDescLe x z = true := by
  intro x y z h1 h2
  cases x <;> cases y <;> cases z <;> simp [optDescLe] at *
  exact le_trans h2 h1

theorem optDescLe_total : ∀ x y : Option ℚ, optDescLe x y || optDescLe y x := by
  intro x y
  cases x <;> cases y <;> simp [optDescLe]
  exact le_total _ _

theorem protDescLe_trans (a b c : Row) (h1 : protDescLe a b = true)
    (h2 : protDescLe b c = true) : protDescLe a c = true :=
  optDescLe_trans _ _ _ h1 h2

theorem protDescLe_total (a b : Row) : protDescLe a b || protDescLe b a :=
  optDescLe_total _ _

/-- C5 (corrected): mean imputation happens only in the offline analysis
path (`data_analysis.py`, `fillna_mean`), not at load time — the backend
loader `load_nutrition_data` returns the parsed table unchanged, blanks
included.  Where imputation does run: in each of the three numeric columns
(protein, carbs, fat) a blank cell is replaced by that same column's mean
over the rows with a valid value and a valid cell is kept unchanged, every
non-numeric field (diet type, recipe name, cuisine, extraction day and
time) is left as-is, and after imputation a numeric column with at least
one valid value (mean not NaN) has no blank cell left. -/
theorem C5_imputation (cols : List String) (rows : List Row) :
    load_nutrition_data (Source.csv cols rows) = some { cols := cols, rows := rows } ∧
    (fillna_mean rows).map Row.diet_type = rows.map Row.diet_type ∧
    (fillna_mean rows).map Row.recipe_name = rows.map Row.recipe_name ∧
    (fillna_mean rows).map Row.cuisine_type = rows.map Row.cuisine_type ∧
    (fillna_mean rows).map Row.extraction_day = rows.map Row.extraction_day ∧
    (fillna_mean rows).map Row.extraction_time = rows.map Row.extraction_time ∧
    (∀ i, (hi : i < rows.length) → (hi2 : i < (fillna_mean rows).length) →
      (rows[i].protein = none →
        (fillna_mean rows)[i].protein = meanOpt (rows.map Row.protein)) ∧
      (∀ v, rows[i].protein = some v → (fillna_mean rows)[i].protein = some v) ∧
      (rows[i].carbs = none →
        (fillna_mean rows)[i].carbs = meanOpt (rows.map Row.carbs)) ∧
      (∀ v, rows[i].carbs = some v → (fillna_mean rows)[i].carbs = some v) ∧
      (rows[i].fat = none →
        (fillna_mean rows)[i].fat = meanOpt (rows.map Row.fat)) ∧
      (∀ v, rows[i].fat = some v → (fillna_mean rows)[i].fat = some v)) ∧
    (meanOpt (rows.map Row.protein) ≠ none →
      ∀ r ∈ fillna_mean rows, r.protein ≠ none) ∧
    (meanOpt (rows.map Row.carbs) ≠ none →
      ∀ r ∈ fillna_mean rows, r.carbs ≠ none) ∧
    (meanOpt (rows.map Row.fat) ≠ none →
      ∀ r ∈ fillna_mean rows, r.fat ≠ none) := by
  refine ⟨rfl, ?_, ?_, ?_, ?_, ?_, ?_, ?_, ?_, ?_⟩
  · rw [fillna_mean, List.map_map]
    rfl
  · rw [fillna_mean, List.map_map]
    rfl
  · rw [fillna_mean, List.map_map]
    rfl
  · rw [fillna_mean, List.map_map]
    rfl
  · rw [fillna_mean, List.map_map]
    rfl
  · intro i hi hi2
    have hcp : (fillna_mean rows)[i].protein
        = fillCell (meanOpt (rows.map Row.protein)) (rows[i].protein) := by
      simp [fillna_mean]
    have hcc : (fillna_mean rows)[i].carbs
        = fillCell (meanOpt (rows.map Row.carbs)) (rows[i].carbs) := by
      simp [fillna_mean]
    have hcf : (fillna_mean rows)[i].fat
        = fillCell (meanOpt (rows.map Row.fat)) (rows[i].fat) := by
      simp [fillna_mean]
    refine ⟨fun h0 => ?_, fun v hv => ?_, fun h0 => ?_, fun v hv => ?_,
      fun h0 => ?_, fun v hv => ?_⟩
    · rw [hcp, h0, fillCell]
    · rw [hcp, hv, fillCell]
    · rw [hcc, h0, fillCell]
    · rw [hcc, hv, fillCell]
    · rw [hcf, h0, fillCell]
    · rw [hcf, hv, fillCell]
  · intro hne r hr
    rw [fillna_mean] at hr
    rcases List.mem_map.mp hr with ⟨r0, -, rfl⟩
    cases h0 : r0.protein with
    | none => simpa [fillCell, h0] using hne
    | some v => simp [fillCell, h0]
  · intro hne r hr
    rw [fillna_mean] at hr
    rcases List.mem_map.mp hr with ⟨r0, -, rfl⟩
    cases h0 : r0.carbs with
    | none => simpa [fillCell, h0] using hne
    | some v => simp [fillCell, h0]
  · intro hne r hr
    rw [fillna_mean] at hr
    rcases List.mem_map.mp hr with ⟨r0, -, rfl⟩
    cases h0 : r0.fat with
    | none => simpa [fillCell, h0] using hne
    | some v => simp [fillCell, h0]

/-- C5 counterexample: loading a source containing a blank protein cell
returns the table with the blank still in place — no imputation happens at
load time — while the offline imputation would have changed the table. -/
theorem C5_counterexample :
    load_nutrition_data (Source.csv requiredCols c5rows)
      = some { cols := requiredCols, rows := c5rows } ∧
    fillna_mean c5rows ≠ c5rows := by
  exact ⟨rfl, by decide⟩

/-- C5 witness: on the concrete table, the protein column has a valid
mean, after the offline imputation no protein cell is blank, and the
blank protein cell of the first row is filled with exactly the protein
column's mean over the valid rows. -/
theorem C5_witness :
    meanOpt (c5rows.map Row.protein) ≠ none ∧
    (∀ r ∈ fillna_mean c5rows, r.protein ≠ none) ∧
    ((fillna_mean c5rows).get ⟨0, by decide⟩).protein
      = meanOpt (c5rows.map Row.protein) := by
  refine ⟨by decide,
    (C5_imputation requiredCols c5rows).2.2.2.2.2.2.2.1 (by decide), ?_⟩
  exact ((C5_imputation requiredCols c5rows).2.2.2.2.2.2.1 0 (by decide)
    (by decide)).1 (by decide)

/-- C6 (corrected): the loader performs no header validation at all — it
fails (with the structured `Failed to load data` payload at the operation
boundary) exactly when the source is missing or has no content, and a
source lacking a required column loads fine; the missing column then
surfaces as an *unhandled* `KeyError` when the summary aggregation runs,
since the Flask handler has no `try/except` — there is no `SchemaError`
and no structured payload for this case. -/
theorem C6_no_schema_validation (src : Source) :
    (load_nutrition_data src = none ↔ (src = Source.missing ∨ src = Source.empty)) ∧
    (get_nutrition_summary src = SummaryResponse.errorPayload "Failed to load data"
      ↔ load_nutrition_data src = none) ∧
    (∀ cols rows, src = Source.csv cols rows →
      requiredCols.all (fun c => cols.contains c) = false →
      get_nutrition_summary src = SummaryResponse.unhandled "KeyError") := by
  refine ⟨?_, ?_, ?_⟩
  · cases src <;> simp [load_nutrition_data]
  · cases src with
    | missing => simp [get_nutrition_summary, load_nutrition_data]
    | empty => simp [get_nutrition_summary, load_nutrition_data]
    | csv cols rows =>
      simp only [get_nutrition_summary, load_nutrition_data]
      constructor
      · intro h
        exfalso
        split at h <;> exact SummaryResponse.noConfusion h
      · intro h
        exact Option.noConfusion h
  · rintro cols rows rfl hcols
    simp only [get_nutrition_summary, load_nutrition_data]
    rw [if_neg]
    rw [hcols]
    exact Bool.false_ne_true

/-- C6 counterexample: a source whose header is just `["Foo"]` loads
without any error (no `SchemaError`), and the summary operation then
escapes as an unhandled `KeyError` instead of a structured error payload. -/
theorem C6_counterexample :
    load_nutrition_data
        (Source.csv ["Foo"] [mkRow (some "keto") (some "a") (some 1) (some 2) (some 3)])
      ≠ none ∧
    get_nutrition_summary
        (Source.csv ["Foo"] [mkRow (some "keto") (some "a") (some 1) (some 2) (some 3)])
      = SummaryResponse.unhandled "KeyError" :=
  ⟨by decide, by decide⟩

/-- C6 witness: the amended behaviour instantiated on a concrete header
lacking every required column. -/
theorem C6_witness :
    requiredCols.all (fun c => (["Bar"] : List String).contains c) = false ∧
    get_nutrition_summary (Source.csv ["Bar"] c7rows)
      = SummaryResponse.unhandled "KeyError" :=
  ⟨by decide,
   (C6_no_schema_validation (Source.csv ["Bar"] c7rows)).2.2 ["Bar"] c7rows rfl (by decide)⟩

/-- C7 (corrected): there is no `InvalidParameterError`.  An unparsable
`limit` silently falls back to the default (werkzeug returns the default
when `int(...)` raises), and a zero or negative `limit` silently yields an
empty success payload (pandas `nlargest` returns an empty frame), rather
than being treated as an error. -/
theorem C7_limit_handling :
    (∀ src, get_top_protein Param.malformed src = get_top_protein Param.absent src) ∧
    (∀ n : ℤ, n ≤ 0 → ∀ cols rows,
      topRequiredCols.all (fun c => cols.contains c) = true →
      get_top_protein (Param.int n) (Source.csv cols rows)
        = TopResponse.success 0 []) := by
  constructor
  · intro src
    rfl
  · intro n hn cols rows hcols
    have hempty : get_top_protein_recipes rows n = [] := by
      rw [get_top_protein_recipes, nlargestProtein]
      by_cases hle : (rows.length : ℤ) ≤ n
      · rw [if_pos hle]
        have hnil : rows = [] := List.length_eq_zero.mp (by omega)
        rw [hnil, List.mergeSort_nil, List.map_nil]
      · rw [if_neg hle, if_pos hn, List.map_nil]
    simp only [get_top_protein, load_nutrition_data, getIntParam]
    rw [if_pos hcols, hempty]
    rfl

/-- C7 witness: a negative limit on a concrete loadable source produces
the empty success payload. -/
theorem C7_witness :
    ((-1 : ℤ) ≤ 0) ∧
    topRequiredCols.all (fun c => requiredCols.contains c) = true ∧
    get_top_protein (Param.int (-1)) (Source.csv requiredCols c2wrows)
      = TopResponse.success 0 [] :=
  ⟨by decide, by decide,
   C7_limit_handling.2 (-1) (by decide) requiredCols c2wrows (by decide)⟩

/-- C7 counterexample: `limit = -1` on a nonempty table is answered with a
success payload (count 0, empty data), not with any error — refuting the
claim that invalid or negative limits are treated as an error. -/
theorem C7_counterexample :
    get_top_protein (Param.int (-1)) (Source.csv requiredCols c7rows)
      = TopResponse.success 0 [] := by
  decide

/-- C8 (corrected): for every table whose aggregation is nonempty (at
least one row with a present diet type), loading the persisted snapshot's
`average_macros` back yields exactly the Diet Summary of the original
table, per diet type, rounded to 2 decimals.  (The corrected part: for a
table with no diet-type group the snapshot stores an empty array and
`load_avg_from_json` raises `ValueError` instead of reproducing the empty
summary — see the counterexample.) -/
theorem C8_roundtrip (rows : List Row) (h : avg_macros rows ≠ []) :
    load_avg_from_json (process_nutritional_data rows "All_Diets.csv")
      = Except.ok ((calculate_diet_summary rows).map summaryToAvg) := by
  have heq : avg_macros rows = (calculate_diet_summary rows).map summaryToAvg := by
    rw [avg_macros, calculate_diet_summary, List.map_map]
    rfl
  simp only [load_avg_from_json, process_nutritional_data]
  rw [if_neg]
  · rw [heq]
  · simpa [List.isEmpty_iff] using h

/-- C8 witness: the round trip instantiated on a concrete one-row table. -/
theorem C8_witness :
    avg_macros c7rows ≠ [] ∧
    load_avg_from_json (process_nutritional_data c7rows "All_Diets.csv")
      = Except.ok ((calculate_diet_summary c7rows).map summaryToAvg) := by
  have hne : avg_macros c7rows ≠ [] := by
    have hk : dietKeys c7rows = ["paleo"] := by decide
    simp only [avg_macros, hk]
    simp
  exact ⟨hne, C8_roundtrip c7rows hne⟩

/-- C8 counterexample: on the empty table the direct aggregation is the
empty summary, but loading the persisted snapshot back raises `ValueError`
(`if not avg`) instead of reproducing it. -/
theorem C8_counterexample :
    load_avg_from_json (process_nutritional_data ([] : List Row) "All_Diets.csv")
      = Except.error "average_macros not present in nutrition_results.json" ∧
    (calculate_diet_summary ([] : List Row)).map summaryToAvg = [] :=
  ⟨rfl, rfl⟩

theorem headPerGroup_sublist (n : ℕ) :
    ∀ (l : List Row) (seen : String → ℕ), List.Sublist (headPerGroup n l seen) l := by
  intro l
  induction l with
  | nil =>
    intro seen
    exact List.Sublist.refl []
  | cons r rs ih =>
    intro seen
    simp only [headPerGroup]
    split
    · exact (ih _).cons r
    · split
      · exact (ih _).cons₂ r
      · exact (ih _).cons r

theorem headPerGroup_filter (n : ℕ) (d : String) :
    ∀ (l : List Row) (seen : String → ℕ),
      (headPerGroup n l seen).filter (fun r => decide (r.diet_type = some d))
        = (l.filter (fun r => decide (r.diet_type = some d))).take (n - seen d) := by
  intro l
  induction l with
  | nil =>
    intro seen
    simp [headPerGroup]
  | cons r rs ih =>
    intro seen
    cases hr : r.diet_type with
    | none =>
      have h1 : headPerGroup n (r :: rs) seen = headPerGroup n rs seen := by
        simp [headPerGroup, hr]
      have h2 : (r :: rs).filter (fun x => decide (x.diet_type = some d))
          = rs.filter (fun x => decide (x.diet_type = some d)) := by
        simp [List.filter_cons, hr]
      rw [h1, h2, ih]
    | some k =>
      by_cases hkd : k = d
      · subst hkd
        have h2 : (r :: rs).filter (fun x => decide (x.diet_type = some k))
            = r :: rs.filter (fun x => decide (x.diet_type = some k)) := by
          simp [List.filter_cons, hr]
        by_cases hlt : seen k < n
        · have h1 : headPerGroup n (r :: rs) seen
              = r :: headPerGroup n rs
                  (fun k2 => if k2 = k then seen k + 1 else seen k2) := by
            simp [headPerGroup, hr, hlt]
          rw [h1, List.filter_cons_of_pos (by simp [hr]), ih, h2]
          have hseen : (if k = k then seen k + 1 else seen k) = seen k + 1 :=
            if_pos rfl
          rw [hseen]
          have harith : n - seen k = (n - (seen k + 1)) + 1 := by omega
          rw [harith, List.take_succ_cons]
        · have h1 : headPerGroup n (r :: rs) seen = headPerGroup n rs seen := by
            simp [headPerGroup, hr, hlt]
          have h0 : n - seen k = 0 := by omega
          rw [h1, ih, h2, h0, List.take_zero, List.take_zero]
      · have h2 : (r :: rs).filter (fun x => decide (x.diet_type = some d))
            = rs.filter (fun x => decide (x.diet_type = some d)) := by
          simp [List.filter_cons, hr, hkd]
        by_cases hlt : seen k < n
        · have h1 : headPerGroup n (r :: rs) seen
              = r :: headPerGroup n rs
                  (fun k2 => if k2 = k then seen k + 1 else seen k2) := by
            simp [headPerGroup, hr, hlt]
          rw [h1, List.filter_cons_of_neg (by simp [hr, hkd]), ih, h2]
          have hseen : (if d = k then seen k + 1 else seen d) = seen d :=
            if_neg (fun h => hkd h.symm)
          rw [hseen]
        · have h1 : headPerGroup n (r :: rs) seen = headPerGroup n rs seen := by
            simp [headPerGroup, hr, hlt]
          rw [h1, ih, h2]

/-- C9 (corrected): for every diet type, the result of the offline
per-diet-type top-5 restricted to that diet type is the first 5 rows of
that group in descending protein order — so each group does contribute its
5 highest-protein records, sorted descending within the group — but the
overall output is a sublist of the globally protein-descending sort (as
pandas `GroupBy.head` preserves the frame's order), interleaving diet
types, rather than the groups' blocks concatenated in group order. -/
theorem C9_top5_per_diet (rows : List Row) (d : String) :
    (top5_per_diet rows).filter (fun r => decide (r.diet_type = some d))
      = ((rows.mergeSort protDescLe).filter
          (fun r => decide (r.diet_type = some d))).take 5 ∧
    List.Sublist (top5_per_diet rows) (rows.mergeSort protDescLe) ∧
    (top5_per_diet rows).Pairwise (fun a b => protDescLe a b = true) := by
  have hsub : List.Sublist (top5_per_diet rows) (rows.mergeSort protDescLe) :=
    headPerGroup_sublist 5 _ _
  refine ⟨?_, hsub, ?_⟩
  · have h := headPerGroup_filter 5 d (rows.mergeSort protDescLe) (fun _ => 0)
    simpa [top5_per_diet] using h
  · exact List.Pairwise.sublist hsub
      (List.sorted_mergeSort protDescLe_trans protDescLe_total rows)

/-- C9 counterexample: on a concrete table with groups `a`, `b`, `a` (in
descending protein order), the output's diet-type sequence is
`["a", "b", "a"]` — the two `a`-rows are separated by the `b`-row, so the
output is *not* a concatenation of per-group blocks in any group order. -/
theorem C9_counterexample :
    (top5_per_diet c9rows).filterMap Row.diet_type = ["a", "b", "a"] ∧
    contiguous ((top5_per_diet c9rows).filterMap Row.diet_type) = false := by
  have hs : c9rows.mergeSort protDescLe = c9rows :=
    List.mergeSort_of_sorted (by decide)
  have h1 : top5_per_diet c9rows = headPerGroup 5 c9rows (fun _ => 0) := by
    simp only [top5_per_diet]
    rw [hs]
  rw [h1]
  exact ⟨by decide, by decide⟩

end NutriProof
